import Mathlib

/-!
Verification development for the snake-game simulation core
(modules snake_game/entities.py and snake_game/game_modes.py).

The Python source is shallowly embedded: Points carry Int coordinates,
the snake is its body list plus a direction, randomness is passed in
explicitly (a stream of draws for random.randint pairs, an index for
random.choice), wall-clock time is an explicit rational argument, and
Python floats are idealised as rationals.  Event strings returned by the
mode update functions are modelled by the inductive type GameEvent
(wallCollision for "Wall collision!", selfCollision for "Self collision!",
obstacleCollision for "Obstacle collision!", foodEaten for "Food eaten!",
timeUp for the time-expiry message).
-/

namespace SnakeGame

/-- entities.Point: immutable 2D integer point. -/
structure Point where
  x : Int
  y : Int
deriving DecidableEq, Repr

/-- Point.__add__ on two points (component-wise). -/
def Point.add (p q : Point) : Point := ⟨p.x + q.x, p.y + q.y⟩

instance : Add Point := ⟨Point.add⟩

/-- Point.is_within_bounds: 0 <= x < width and 0 <= y < height. -/
def Point.isWithinBounds (p : Point) (width height : Nat) : Prop :=
  0 ≤ p.x ∧ p.x < width ∧ 0 ≤ p.y ∧ p.y < height

instance (p : Point) (w h : Nat) : Decidable (p.isWithinBounds w h) := by
  unfold Point.isWithinBounds; infer_instance

/-- The four direction constants of entities.py. -/
def DIRECTION_RIGHT : Point := ⟨1, 0⟩

def DIRECTION_LEFT : Point := ⟨-1, 0⟩

def DIRECTION_UP : Point := ⟨0, -1⟩

def DIRECTION_DOWN : Point := ⟨0, 1⟩

/-- The set of the four orthogonal unit vectors. -/
def unitDirections : List Point :=
  [DIRECTION_RIGHT, DIRECTION_LEFT, DIRECTION_UP, DIRECTION_DOWN]

/-- MAX_FOOD_SPAWN_ATTEMPTS constant. -/
def MAX_FOOD_SPAWN_ATTEMPTS : Nat := 100

/-- entities.Snake: ordered body (head at index 0) and current direction. -/
structure Snake where
  body : List Point
  direction : Point
deriving DecidableEq, Repr

/-- Snake.__init__: body laid out leftwards from the start position,
direction initially DIRECTION_RIGHT.  (The Python constructor raises for
initial_length < 1; theorems that need it carry that bound as a
hypothesis.) -/
def Snake.init (startPosition : Point) (initialLength : Nat) : Snake :=
  { body := (List.range initialLength).map
      (fun i => ⟨startPosition.x - i, startPosition.y⟩),
    direction := DIRECTION_RIGHT }

/-- Snake.head: the body segment at index 0. -/
def Snake.head (s : Snake) : Point := s.body.headD ⟨0, 0⟩

/-- Snake.move: prepend head + direction; unless growing, pop the tail. -/
def Snake.move (s : Snake) (grow : Bool) : Snake :=
  let newHead := s.head + s.direction
  let inserted := newHead :: s.body
  { s with body := if grow then inserted else inserted.dropLast }

/-- Snake._is_opposite_direction. -/
def Snake.isOppositeDirection (s : Snake) (newDirection : Point) : Prop :=
  (s.direction.x = -newDirection.x ∧ s.direction.x ≠ 0) ∨
  (s.direction.y = -newDirection.y ∧ s.direction.y ≠ 0)

instance (s : Snake) (d : Point) : Decidable (s.isOppositeDirection d) := by
  unfold Snake.isOppositeDirection; infer_instance

/-- Snake.change_direction: reject an opposite direction (returning the
snake unchanged and false), otherwise commit it and return true. -/
def Snake.changeDirection (s : Snake) (newDirection : Point) : Snake × Bool :=
  if s.isOppositeDirection newDirection then (s, false)
  else ({ s with direction := newDirection }, true)

/-- Snake.has_self_collision: head occurs again at index >= 1. -/
def Snake.hasSelfCollision (s : Snake) : Prop := s.head ∈ s.body.tail

instance (s : Snake) : Decidable s.hasSelfCollision := by
  unfold Snake.hasSelfCollision; infer_instance

/-- The cells of a (width, height) grid, in the enumeration order used
throughout entities.py and game_modes.py: outer loop over x in
range(width), inner loop over y in range(height). -/
def gridCells (gridSize : Nat × Nat) : List Point :=
  (List.range gridSize.1).flatMap
    (fun x =>
      (List.range gridSize.2).map (fun y => ⟨Int.ofNat x, Int.ofNat y⟩))

/-- Food._find_fallback_position: the first grid cell (in the x-outer,
y-inner scan order) not occupied by the snake, else (0, 0). -/
def findFallbackPosition (gridSize : Nat × Nat) (snakeBody : List Point) :
    Point :=
  match (gridCells gridSize).find? (fun c => decide (c ∉ snakeBody)) with
  | some c => c
  | none => ⟨0, 0⟩

/-- The attempt loop of Food._random_spawn.  The stream draws models the
successive pairs of random.randint results; index i is the i-th attempt.
Returns some position on the first draw free of snake and obstacles,
none when the fuel (the attempt budget) runs out. -/
def randomSpawnGo (snakeBody obstacles : List Point) (draws : Nat → Point)
    (i : Nat) : Nat → Option Point
  | 0 => none
  | fuel + 1 =>
    let position := draws i
    if position ∉ snakeBody ∧ position ∉ obstacles then some position
    else randomSpawnGo snakeBody obstacles draws (i + 1) fuel

/-- Food._random_spawn: up to MAX_FOOD_SPAWN_ATTEMPTS random draws, then
fall back to Food._find_fallback_position. -/
def randomSpawn (gridSize : Nat × Nat) (snakeBody obstacles : List Point)
    (draws : Nat → Point) : Point :=
  match randomSpawnGo snakeBody obstacles draws 0 MAX_FOOD_SPAWN_ATTEMPTS with
  | some p => p
  | none => findFallbackPosition gridSize snakeBody

/-- The available-cells list built by Food._systematic_spawn and by
ChallengeMode._add_obstacle: all grid cells on neither the snake body nor
the obstacle set, in the x-outer, y-inner order. -/
def availablePositions (gridSize : Nat × Nat)
    (snakeBody obstacles : List Point) : List Point :=
  (gridCells gridSize).filter
    (fun c => decide (c ∉ snakeBody ∧ c ∉ obstacles))

/-- Food._systematic_spawn: random.choice over the available positions
(modelled by the index choice, reduced modulo the list length), falling
back to Food._find_fallback_position when none are available. -/
def systematicSpawn (gridSize : Nat × Nat) (snakeBody obstacles : List Point)
    (choice : Nat) : Point :=
  let available := availablePositions gridSize snakeBody obstacles
  if h : available = [] then findFallbackPosition gridSize snakeBody
  else
    available.get
      ⟨choice % available.length,
       Nat.mod_lt _ (List.length_pos.mpr h)⟩

/-- Food.spawn.  The Python test occupied < total * 0.5 over integers is
exactly 2 * occupied < total (multiplying an int by the float 0.5 is an
exact halving).  Obstacles are a Python set; they are modelled as a list,
with a Nodup hypothesis wherever their cardinality matters. -/
def Food.spawn (gridSize : Nat × Nat) (snakeBody obstacles : List Point)
    (draws : Nat → Point) (choice : Nat) : Point :=
  let totalPositions := gridSize.1 * gridSize.2
  let occupiedPositions := snakeBody.length + obstacles.length
  if occupiedPositions ≥ totalPositions then
    findFallbackPosition gridSize snakeBody
  else if 2 * occupiedPositions < totalPositions then
    randomSpawn gridSize snakeBody obstacles draws
  else
    systematicSpawn gridSize snakeBody obstacles choice

/-- The event tags returned by GameMode.update, as an inductive type in
place of the message strings of game_modes.py. -/
inductive GameEvent where
  | wallCollision
  | selfCollision
  | obstacleCollision
  | foodEaten
  | timeUp
deriving DecidableEq, Repr

/-- GameMode._wrap_around_movement: replace the head (body index 0) by
its coordinates reduced modulo the grid dimensions. -/
def wrapAroundMovement (gridSize : Nat × Nat) (s : Snake) : Snake :=
  let head := s.head
  let wrapped : Point := ⟨head.x % (gridSize.1 : Int), head.y % (gridSize.2 : Int)⟩
  { s with body := s.body.set 0 wrapped }

/-- ClassicMode.update, returning (continue, event), the new mode score
and the snake after wraparound. -/
def classicUpdate (gridSize : Nat × Nat) (score : Int) (s : Snake)
    (food : Point) : (Bool × Option GameEvent) × Int × Snake :=
  let s1 := wrapAroundMovement gridSize s
  if s1.hasSelfCollision then ((false, some GameEvent.selfCollision), score, s1)
  else if s1.head = food then ((true, some GameEvent.foodEaten), score + 1, s1)
  else ((true, none), score, s1)

/-- Python int() applied to a rational: truncation toward zero. -/
def pyInt (q : ℚ) : Int := if 0 ≤ q then ⌊q⌋ else ⌈q⌉

/-- TimedMode state: time limit and remaining time (Python floats,
idealised as rationals), the last-observed timestamp, score and the
bonus-point accumulator. -/
structure TimedState where
  gridSize : Nat × Nat
  timeLimit : ℚ
  timeRemaining : ℚ
  lastUpdate : Option ℚ
  score : Int
  bonusPoints : Int
deriving DecidableEq, Repr

/-- TimedMode.__init__ with a given grid size and time limit. -/
def TimedState.init (gridSize : Nat × Nat) (timeLimit : ℚ) : TimedState :=
  { gridSize := gridSize, timeLimit := timeLimit, timeRemaining := timeLimit,
    lastUpdate := none, score := 0, bonusPoints := 0 }

/-- TimedMode._update_timer at wall-clock instant currentTime: the first
call only records the baseline; later calls subtract the elapsed delta,
clamped at 0. -/
def TimedState.updateTimer (st : TimedState) (currentTime : ℚ) : TimedState :=
  match st.lastUpdate with
  | none => { st with lastUpdate := some currentTime }
  | some last =>
    { st with
      timeRemaining := max 0 (st.timeRemaining - (currentTime - last)),
      lastUpdate := some currentTime }

/-- TimedMode._calculate_time_bonus: int(remaining / limit * 10). -/
def TimedState.calculateTimeBonus (st : TimedState) : Int :=
  pyInt (st.timeRemaining / st.timeLimit * 10)

/-- TimedMode.update, returning (continue, event), the new mode state and
the snake after wraparound. -/
def timedUpdate (st : TimedState) (currentTime : ℚ) (s : Snake)
    (food : Point) : (Bool × Option GameEvent) × TimedState × Snake :=
  let st1 := st.updateTimer currentTime
  if st1.timeRemaining ≤ 0 then ((false, some GameEvent.timeUp), st1, s)
  else
    let s1 := wrapAroundMovement st1.gridSize s
    if s1.hasSelfCollision then ((false, some GameEvent.selfCollision), st1, s1)
    else if s1.head = food then
      let timeBonus := st1.calculateTimeBonus
      let totalPoints := 1 + timeBonus
      ((true, some GameEvent.foodEaten),
       { st1 with
         score := st1.score + totalPoints,
         bonusPoints := st1.bonusPoints + timeBonus }, s1)
    else ((true, none), st1, s1)

/-- CHALLENGE_SPEED_INCREMENT = 0.15, idealised as a rational. -/
def CHALLENGE_SPEED_INCREMENT : ℚ := 3 / 20

/-- OBSTACLE_FREQUENCY = 3. -/
def OBSTACLE_FREQUENCY : Nat := 3

/-- ChallengeMode state: score, speed multiplier (Python float,
idealised as a rational), obstacle set (modelled as a duplicate-free
list) and foods-eaten counter. -/
structure ChallengeState where
  gridSize : Nat × Nat
  score : Int
  speedMultiplier : ℚ
  obstacles : List Point
  foodsEaten : Nat
deriving DecidableEq, Repr

/-- ChallengeMode.__init__. -/
def ChallengeState.init (gridSize : Nat × Nat) : ChallengeState :=
  { gridSize := gridSize, score := 0, speedMultiplier := 1,
    obstacles := [], foodsEaten := 0 }

/-- ChallengeMode._is_wall_collision. -/
def ChallengeState.isWallCollision (st : ChallengeState) (s : Snake) : Prop :=
  s.head.x < 0 ∨ s.head.x ≥ (st.gridSize.1 : Int) ∨
  s.head.y < 0 ∨ s.head.y ≥ (st.gridSize.2 : Int)

instance (st : ChallengeState) (s : Snake) :
    Decidable (st.isWallCollision s) := by
  unfold ChallengeState.isWallCollision; infer_instance

/-- ChallengeMode._is_obstacle_collision. -/
def ChallengeState.isObstacleCollision (st : ChallengeState) (s : Snake) :
    Prop := s.head ∈ st.obstacles

instance (st : ChallengeState) (s : Snake) :
    Decidable (st.isObstacleCollision s) := by
  unfold ChallengeState.isObstacleCollision; infer_instance

/-- ChallengeMode._add_obstacle: pick a random available cell (modelled
by the index choice) and add it to the obstacle set; silently skip when
no cell is available. -/
def ChallengeState.addObstacle (st : ChallengeState) (snakeBody : List Point)
    (choice : Nat) : ChallengeState :=
  let available := availablePositions st.gridSize snakeBody st.obstacles
  if h : available = [] then st
  else
    { st with
      obstacles :=
        available.get
          ⟨choice % available.length,
           Nat.mod_lt _ (List.length_pos.mpr h)⟩ :: st.obstacles }

/-- ChallengeMode._increase_difficulty: bump the foods-eaten counter and
the speed multiplier; add an obstacle every OBSTACLE_FREQUENCY foods. -/
def ChallengeState.increaseDifficulty (st : ChallengeState)
    (snakeBody : List Point) (choice : Nat) : ChallengeState :=
  let st1 :=
    { st with
      foodsEaten := st.foodsEaten + 1,
      speedMultiplier := st.speedMultiplier + CHALLENGE_SPEED_INCREMENT }
  if st1.foodsEaten % OBSTACLE_FREQUENCY = 0 then
    st1.addObstacle snakeBody choice
  else st1

/-- ChallengeMode.update, returning (continue, event) and the new mode
state.  The snake is not moved: challenge mode applies no wraparound. -/
def challengeUpdate (st : ChallengeState) (s : Snake) (food : Point)
    (choice : Nat) : (Bool × Option GameEvent) × ChallengeState :=
  if st.isWallCollision s then ((false, some GameEvent.wallCollision), st)
  else if s.hasSelfCollision then ((false, some GameEvent.selfCollision), st)
  else if st.isObstacleCollision s then
    ((false, some GameEvent.obstacleCollision), st)
  else if s.head = food then
    ((true, some GameEvent.foodEaten),
     ChallengeState.increaseDifficulty { st with score := st.score + 1 }
       s.body choice)
  else ((true, none), st)

section Lemmas

/-- Membership in the grid-cell enumeration is exactly the bounds test. -/
lemma mem_gridCells {gs : Nat × Nat} {p : Point} :
    p ∈ gridCells gs ↔
      0 ≤ p.x ∧ p.x < (gs.1 : Int) ∧ 0 ≤ p.y ∧ p.y < (gs.2 : Int) := by
  simp only [gridCells, List.mem_flatMap, List.mem_map, List.mem_range]
  constructor
  · rintro ⟨x, hx, y, hy, rfl⟩
    refine ⟨?_, ?_, ?_, ?_⟩ <;> dsimp only <;>
      simp only [Int.ofNat_eq_coe] <;> omega
  · rintro ⟨h1, h2, h3, h4⟩
    refine ⟨p.x.toNat, by omega, p.y.toNat, by omega, ?_⟩
    cases p with
    | mk px py =>
      simp only [Point.mk.injEq, Int.ofNat_eq_coe]
      dsimp only at h1 h2 h3 h4
      constructor <;> omega

/-- The grid-cell enumeration has no duplicates. -/
lemma gridCells_nodup (gs : Nat × Nat) : (gridCells gs).Nodup := by
  unfold gridCells
  rw [List.nodup_flatMap]
  constructor
  · intro x _
    refine (List.nodup_range _).map ?_
    intro a b hab
    have h := congrArg Point.y hab
    dsimp only at h
    simp only [Int.ofNat_eq_coe] at h
    omega
  · refine (List.pairwise_lt_range _).imp ?_
    intro a b hab
    intro q hqa hqb
    simp only [List.mem_map, List.mem_range] at hqa hqb
    obtain ⟨y1, _, rfl⟩ := hqa
    obtain ⟨y2, _, h⟩ := hqb
    have h2 := congrArg Point.x h
    dsimp only at h2
    simp only [Int.ofNat_eq_coe] at h2
    omega

/-- The grid-cell enumeration has width * height entries. -/
lemma gridCells_length (gs : Nat × Nat) :
    (gridCells gs).length = gs.1 * gs.2 := by
  unfold gridCells
  rw [List.length_flatMap]
  simp [Function.comp_def]

/-- Pigeonhole: fewer occupied cells than grid cells leaves a free cell. -/
lemma exists_free_cell {gs : Nat × Nat} {occ : List Point}
    (h : occ.length < gs.1 * gs.2) : ∃ c ∈ gridCells gs, c ∉ occ := by
  by_contra hall
  push_neg at hall
  have hsub : (gridCells gs).toFinset ⊆ occ.toFinset := by
    intro c hc
    rw [List.mem_toFinset] at hc ⊢
    exact hall c hc
  have h1 : (gridCells gs).toFinset.card = gs.1 * gs.2 := by
    rw [List.toFinset_card_of_nodup (gridCells_nodup gs), gridCells_length]
  have h2 := Finset.card_le_card hsub
  have h3 := List.toFinset_card_le occ
  omega

/-- When a cell off the snake exists, the fallback scan returns a grid
cell that is not on the snake. -/
lemma findFallbackPosition_spec {gs : Nat × Nat} {snakeBody : List Point}
    (h : ∃ c ∈ gridCells gs, c ∉ snakeBody) :
    findFallbackPosition gs snakeBody ∈ gridCells gs ∧
    findFallbackPosition gs snakeBody ∉ snakeBody := by
  unfold findFallbackPosition
  obtain ⟨c, hc, hcn⟩ := h
  cases hf : (gridCells gs).find? (fun c => decide (c ∉ snakeBody)) with
  | none =>
    exfalso
    rw [List.find?_eq_none] at hf
    exact hf c hc (by simpa using hcn)
  | some r =>
    refine ⟨List.mem_of_find?_eq_some hf, ?_⟩
    have := List.find?_some hf
    simpa using this

/-- The fallback scan always lands inside a nonempty grid. -/
lemma findFallbackPosition_bounds {gs : Nat × Nat} (hw : 0 < gs.1)
    (hh : 0 < gs.2) (snakeBody : List Point) :
    (findFallbackPosition gs snakeBody).isWithinBounds gs.1 gs.2 := by
  unfold findFallbackPosition
  cases hf : (gridCells gs).find? (fun c => decide (c ∉ snakeBody)) with
  | none =>
    refine ⟨le_refl 0, ?_, le_refl 0, ?_⟩ <;> simpa using by omega
  | some r =>
    have hr := List.mem_of_find?_eq_some hf
    rw [mem_gridCells] at hr
    exact hr

/-- Membership in the available-position list. -/
lemma mem_availablePositions {gs : Nat × Nat} {snake obs : List Point}
    {c : Point} :
    c ∈ availablePositions gs snake obs ↔
      c ∈ gridCells gs ∧ c ∉ snake ∧ c ∉ obs := by
  unfold availablePositions
  simp [List.mem_filter]

/-- With strictly fewer occupied cells than grid cells, the
available-position list is nonempty. -/
lemma availablePositions_ne_nil {gs : Nat × Nat} {snake obs : List Point}
    (h : snake.length + obs.length < gs.1 * gs.2) :
    availablePositions gs snake obs ≠ [] := by
  have hlen : (snake ++ obs).length < gs.1 * gs.2 := by
    simpa using h
  obtain ⟨c, hc, hcn⟩ := exists_free_cell hlen
  intro hnil
  have hmem : c ∈ availablePositions gs snake obs := by
    refine mem_availablePositions.mpr ⟨hc, ?_, ?_⟩
    · exact fun hmem => hcn (List.mem_append_left _ hmem)
    · exact fun hmem => hcn (List.mem_append_right _ hmem)
  rw [hnil] at hmem
  exact List.not_mem_nil c hmem

/-- A successful attempt of the random-spawn loop is free of snake and
obstacles and is one of the supplied draws. -/
lemma randomSpawnGo_some {snake obs : List Point} {draws : Nat → Point} :
    ∀ {fuel i : Nat} {p : Point},
      randomSpawnGo snake obs draws i fuel = some p →
      (p ∉ snake ∧ p ∉ obs) ∧ ∃ j, draws j = p := by
  intro fuel
  induction fuel with
  | zero =>
    intro i p h
    simp [randomSpawnGo] at h
  | succ n ih =>
    intro i p h
    by_cases hc : draws i ∉ snake ∧ draws i ∉ obs
    · simp only [randomSpawnGo, if_pos hc, Option.some.injEq] at h
      exact h ▸ ⟨hc, i, rfl⟩
    · rw [randomSpawnGo, if_neg hc] at h
      exact ih h

/-- If some attempt within the budget would succeed, the random-spawn
loop succeeds. -/
lemma randomSpawnGo_succeeds {snake obs : List Point} {draws : Nat → Point} :
    ∀ (fuel i : Nat),
      (∃ j, i ≤ j ∧ j < i + fuel ∧ draws j ∉ snake ∧ draws j ∉ obs) →
      ∃ p, randomSpawnGo snake obs draws i fuel = some p := by
  intro fuel
  induction fuel with
  | zero =>
    rintro i ⟨j, h1, h2, _⟩
    omega
  | succ n ih =>
    rintro i ⟨j, h1, h2, hfree⟩
    by_cases hc : draws i ∉ snake ∧ draws i ∉ obs
    · exact ⟨draws i, by rw [randomSpawnGo, if_pos hc]⟩
    · have hij : i ≠ j := by
        rintro rfl
        exact hc hfree
      rw [randomSpawnGo, if_neg hc]
      exact ih (i + 1) ⟨j, by omega, by omega, hfree⟩

/-- A successful find? splits the list at the first match. -/
lemma find?_eq_some_first {α : Type} {p : α → Bool} :
    ∀ {l : List α} {a : α}, l.find? p = some a →
      ∃ l₁ l₂, l = l₁ ++ a :: l₂ ∧ p a = true ∧ ∀ b ∈ l₁, p b = false := by
  intro l
  induction l with
  | nil =>
    intro a h
    simp at h
  | cons x xs ih =>
    intro a h
    by_cases hx : p x = true
    · rw [List.find?_cons_of_pos _ hx] at h
      injection h with h
      subst h
      exact ⟨[], xs, rfl, hx, by simp⟩
    · rw [List.find?_cons_of_neg _ (by simpa using hx)] at h
      obtain ⟨l₁, l₂, rfl, hpa, hprev⟩ := ih h
      refine ⟨x :: l₁, l₂, rfl, hpa, ?_⟩
      intro b hb
      rcases List.mem_cons.mp hb with rfl | hb
      · simpa using hx
      · exact hprev b hb

/-- Wraparound rewrites the head by the modulo formula (nonempty body). -/
lemma wrapAroundMovement_head {gs : Nat × Nat} {s : Snake}
    (hne : s.body ≠ []) :
    (wrapAroundMovement gs s).head =
      ⟨s.head.x % (gs.1 : Int), s.head.y % (gs.2 : Int)⟩ := by
  rcases s with ⟨body, d⟩
  cases body with
  | nil => exact absurd rfl hne
  | cons a t => simp [wrapAroundMovement, Snake.head]

end Lemmas

section Claims

/-- Claim C3: move(grow=false) keeps the body length and sets the new
head to old_head + direction; move(grow=true) adds exactly one segment,
sets the new head to old_head + direction and preserves the tail
segment. -/
theorem c3_move (s : Snake) (hne : s.body ≠ []) :
    ((s.move false).body.length = s.body.length ∧
     (s.move false).head = s.head + s.direction) ∧
    ((s.move true).body.length = s.body.length + 1 ∧
     (s.move true).head = s.head + s.direction ∧
     (s.move true).body.getLast? = s.body.getLast?) := by
  rcases s with ⟨body, d⟩
  cases body with
  | nil => exact absurd rfl hne
  | cons a t =>
    refine ⟨⟨?_, ?_⟩, ?_, ?_, ?_⟩
    · simp [Snake.move]
    · simp [Snake.move, Snake.head,
        List.dropLast_cons_of_ne_nil (List.cons_ne_nil a t)]
    · simp [Snake.move]
    · simp [Snake.move, Snake.head]
    · simp [Snake.move, List.getLast?_cons_cons]

/-- Witness for C3 at a concrete three-segment snake. -/
theorem c3_move_witness :
    (Snake.mk [⟨5, 5⟩, ⟨4, 5⟩, ⟨3, 5⟩] ⟨1, 0⟩).body ≠ [] ∧
    ((((Snake.mk [⟨5, 5⟩, ⟨4, 5⟩, ⟨3, 5⟩] ⟨1, 0⟩).move false).body.length =
        (Snake.mk [⟨5, 5⟩, ⟨4, 5⟩, ⟨3, 5⟩] ⟨1, 0⟩).body.length ∧
      ((Snake.mk [⟨5, 5⟩, ⟨4, 5⟩, ⟨3, 5⟩] ⟨1, 0⟩).move false).head =
        (Snake.mk [⟨5, 5⟩, ⟨4, 5⟩, ⟨3, 5⟩] ⟨1, 0⟩).head +
          (Snake.mk [⟨5, 5⟩, ⟨4, 5⟩, ⟨3, 5⟩] ⟨1, 0⟩).direction) ∧
     (((Snake.mk [⟨5, 5⟩, ⟨4, 5⟩, ⟨3, 5⟩] ⟨1, 0⟩).move true).body.length =
        (Snake.mk [⟨5, 5⟩, ⟨4, 5⟩, ⟨3, 5⟩] ⟨1, 0⟩).body.length + 1 ∧
      ((Snake.mk [⟨5, 5⟩, ⟨4, 5⟩, ⟨3, 5⟩] ⟨1, 0⟩).move true).head =
        (Snake.mk [⟨5, 5⟩, ⟨4, 5⟩, ⟨3, 5⟩] ⟨1, 0⟩).head +
          (Snake.mk [⟨5, 5⟩, ⟨4, 5⟩, ⟨3, 5⟩] ⟨1, 0⟩).direction ∧
      ((Snake.mk [⟨5, 5⟩, ⟨4, 5⟩, ⟨3, 5⟩] ⟨1, 0⟩).move true).body.getLast? =
        (Snake.mk [⟨5, 5⟩, ⟨4, 5⟩, ⟨3, 5⟩] ⟨1, 0⟩).body.getLast?)) :=
  ⟨by decide, c3_move (Snake.mk [⟨5, 5⟩, ⟨4, 5⟩, ⟨3, 5⟩] ⟨1, 0⟩) (by decide)⟩

/-- Claim C4: over the four orthogonal unit directions,
change_direction rejects (returning the unchanged snake and false)
exactly the opposite of the current direction, and commits every other
candidate (the same direction included), returning true. -/
theorem c4_changeDirection (s : Snake) (c : Point)
    (hd : s.direction ∈ unitDirections) (hc : c ∈ unitDirections) :
    (s.changeDirection c = (s, false) ↔
        c = ⟨-s.direction.x, -s.direction.y⟩) ∧
    (c ≠ ⟨-s.direction.x, -s.direction.y⟩ →
      s.changeDirection c = ({ s with direction := c }, true)) := by
  rcases s with ⟨body, d⟩
  simp only [unitDirections, DIRECTION_RIGHT, DIRECTION_LEFT, DIRECTION_UP,
    DIRECTION_DOWN, List.mem_cons, List.not_mem_nil, or_false] at hd hc
  rcases hd with rfl | rfl | rfl | rfl <;>
    rcases hc with rfl | rfl | rfl | rfl <;>
      simp [Snake.changeDirection, Snake.isOppositeDirection,
        Point.mk.injEq, Snake.mk.injEq]

/-- Witness for C4: with direction right, the up candidate is committed
and true is returned. -/
theorem c4_changeDirection_witness :
    (Snake.mk [⟨5, 5⟩] ⟨1, 0⟩).direction ∈ unitDirections ∧
    (⟨0, -1⟩ : Point) ∈ unitDirections ∧
    ((⟨0, -1⟩ : Point) ≠
        ⟨-(Snake.mk [⟨5, 5⟩] ⟨1, 0⟩).direction.x,
         -(Snake.mk [⟨5, 5⟩] ⟨1, 0⟩).direction.y⟩ →
      (Snake.mk [⟨5, 5⟩] ⟨1, 0⟩).changeDirection ⟨0, -1⟩ =
        ({ Snake.mk [⟨5, 5⟩] ⟨1, 0⟩ with direction := ⟨0, -1⟩ }, true)) :=
  ⟨by decide, by decide,
   (c4_changeDirection (Snake.mk [⟨5, 5⟩] ⟨1, 0⟩) ⟨0, -1⟩ (by decide)
     (by decide)).2⟩

/-- Claim C5: one wraparound application reduces the head coordinates
modulo the grid dimensions, leaves the head inside the grid, and in
particular maps (-1, y) to (W-1, y) and (W, y) to (0, y). -/
theorem c5_wraparound (gs : Nat × Nat) (s : Snake) (hw : 0 < gs.1)
    (hh : 0 < gs.2) (hne : s.body ≠ []) (y : Int) (hy : 0 ≤ y)
    (hy2 : y < (gs.2 : Int)) :
    ((wrapAroundMovement gs s).head.x = s.head.x % (gs.1 : Int) ∧
     (wrapAroundMovement gs s).head.y = s.head.y % (gs.2 : Int)) ∧
    (wrapAroundMovement gs s).head.isWithinBounds gs.1 gs.2 ∧
    (s.head = ⟨-1, y⟩ →
      (wrapAroundMovement gs s).head = ⟨(gs.1 : Int) - 1, y⟩) ∧
    (s.head = ⟨(gs.1 : Int), y⟩ →
      (wrapAroundMovement gs s).head = ⟨0, y⟩) := by
  rw [wrapAroundMovement_head hne]
  refine ⟨⟨rfl, rfl⟩, ⟨?_, ?_, ?_, ?_⟩, ?_, ?_⟩
  · exact Int.emod_nonneg _ (by omega)
  · exact Int.emod_lt_of_pos _ (by omega)
  · exact Int.emod_nonneg _ (by omega)
  · exact Int.emod_lt_of_pos _ (by omega)
  · intro hhead
    rw [hhead]
    simp only [Point.mk.injEq]
    have hconv : (-1 : Int) % (gs.1 : Int) = ((gs.1 : Int) - 1) % (gs.1 : Int) := by
      conv_rhs => rw [show ((gs.1 : Int) - 1) = -1 + 1 * (gs.1 : Int) by ring]
      rw [Int.add_mul_emod_self]
    refine ⟨?_, Int.emod_eq_of_lt hy hy2⟩
    rw [hconv]
    exact Int.emod_eq_of_lt (by omega) (by omega)
  · intro hhead
    rw [hhead]
    simp only [Point.mk.injEq]
    exact ⟨Int.emod_self, Int.emod_eq_of_lt hy hy2⟩

/-- Witness for C5: end-to-end scenario A, grid 10 by 10, head forced to
(-1, 5): after wraparound the head is (9, 5). -/
theorem c5_wraparound_witness :
    0 < (10, 10).1 ∧ 0 < (10, 10).2 ∧
    (Snake.mk [⟨-1, 5⟩, ⟨0, 5⟩] ⟨-1, 0⟩).body ≠ [] ∧
    (0 : Int) ≤ 5 ∧ (5 : Int) < ((10, 10).2 : Int) ∧
    ((Snake.mk [⟨-1, 5⟩, ⟨0, 5⟩] ⟨-1, 0⟩).head = ⟨-1, 5⟩ →
      (wrapAroundMovement (10, 10) (Snake.mk [⟨-1, 5⟩, ⟨0, 5⟩] ⟨-1, 0⟩)).head =
        ⟨((10, 10).1 : Int) - 1, 5⟩) :=
  ⟨by decide, by decide, by decide, by decide, by decide,
   (c5_wraparound (10, 10) (Snake.mk [⟨-1, 5⟩, ⟨0, 5⟩] ⟨-1, 0⟩) (by decide)
     (by decide) (by decide) 5 (by decide) (by decide)).2.2.1⟩

/-- Claim C2: challenge update checks wall, then self, then obstacle
collisions, with no wraparound: an out-of-bounds head returns the wall
collision result unconditionally; an in-bounds head repeated at body
index at least 1 returns the self collision result; otherwise an
obstacle hit returns the obstacle collision result. -/
theorem c2_challengeOrder (st : ChallengeState) (s : Snake) (food : Point)
    (k : Nat) :
    (¬ s.head.isWithinBounds st.gridSize.1 st.gridSize.2 →
      challengeUpdate st s food k =
        ((false, some GameEvent.wallCollision), st)) ∧
    (s.head.isWithinBounds st.gridSize.1 st.gridSize.2 →
      s.hasSelfCollision →
      challengeUpdate st s food k =
        ((false, some GameEvent.selfCollision), st)) ∧
    (s.head.isWithinBounds st.gridSize.1 st.gridSize.2 →
      ¬ s.hasSelfCollision → s.head ∈ st.obstacles →
      challengeUpdate st s food k =
        ((false, some GameEvent.obstacleCollision), st)) := by
  have hwall : st.isWallCollision s ↔
      ¬ s.head.isWithinBounds st.gridSize.1 st.gridSize.2 := by
    unfold ChallengeState.isWallCollision Point.isWithinBounds
    constructor
    · intro h hin
      omega
    · intro h
      by_contra hno
      push_neg at hno
      exact h ⟨by omega, by omega, by omega, by omega⟩
  refine ⟨?_, ?_, ?_⟩
  · intro hout
    unfold challengeUpdate
    rw [if_pos (hwall.mpr hout)]
  · intro hin hself
    unfold challengeUpdate
    rw [if_neg (fun hcol => (hwall.mp hcol) hin), if_pos hself]
  · intro hin hself hobs
    unfold challengeUpdate
    rw [if_neg (fun hcol => (hwall.mp hcol) hin), if_neg hself,
      if_pos (show st.isObstacleCollision s from hobs)]

/-- Witness for C2: end-to-end scenario C, grid 10 by 10 challenge
mode, head forced to (-1, 5): one tick yields (false, wall collision). -/
theorem c2_challengeOrder_witness :
    ¬ (Snake.mk [⟨-1, 5⟩, ⟨0, 5⟩] ⟨-1, 0⟩).head.isWithinBounds
        (ChallengeState.init (10, 10)).gridSize.1
        (ChallengeState.init (10, 10)).gridSize.2 ∧
    challengeUpdate (ChallengeState.init (10, 10))
        (Snake.mk [⟨-1, 5⟩, ⟨0, 5⟩] ⟨-1, 0⟩) ⟨7, 5⟩ 0 =
      ((false, some GameEvent.wallCollision), ChallengeState.init (10, 10)) :=
  ⟨by decide,
   (c2_challengeOrder (ChallengeState.init (10, 10))
     (Snake.mk [⟨-1, 5⟩, ⟨0, 5⟩] ⟨-1, 0⟩) ⟨7, 5⟩ 0).1 (by decide)⟩

/-- Claim C8 counterexample: with current direction (1, 0), the
candidate (2, 0) is not treated as opposite, so change_direction
installs it and returns true, although (2, 0) is not one of the four
orthogonal unit vectors. -/
theorem c8_counterexample :
    (Snake.mk [⟨0, 0⟩] ⟨1, 0⟩).changeDirection ⟨2, 0⟩ =
      (Snake.mk [⟨0, 0⟩] ⟨2, 0⟩, true) ∧
    (⟨2, 0⟩ : Point) ∉ unitDirections := by decide

/-- Claim C8 amended: construction installs the unit vector (1, 0), and
change_direction keeps the direction inside the four orthogonal unit
vectors provided the candidate itself is one of them; an arbitrary
out-of-set candidate can be installed verbatim (see the
counterexample). -/
theorem c8_direction_invariant (p : Point) (n : Nat) (s : Snake) (c : Point)
    (hs : s.direction ∈ unitDirections) (hc : c ∈ unitDirections) :
    (Snake.init p n).direction ∈ unitDirections ∧
    (s.changeDirection c).1.direction ∈ unitDirections := by
  constructor
  · exact List.mem_cons_self _ _
  · unfold Snake.changeDirection
    split
    · simpa using hs
    · simpa using hc

/-- Witness for C8 amended at a concrete snake and candidate. -/
theorem c8_direction_invariant_witness :
    (Snake.mk [⟨0, 0⟩] ⟨1, 0⟩).direction ∈ unitDirections ∧
    (⟨0, 1⟩ : Point) ∈ unitDirections ∧
    ((Snake.init ⟨5, 5⟩ 3).direction ∈ unitDirections ∧
     ((Snake.mk [⟨0, 0⟩] ⟨1, 0⟩).changeDirection ⟨0, 1⟩).1.direction ∈
       unitDirections) :=
  ⟨by decide, by decide,
   c8_direction_invariant ⟨5, 5⟩ 3 (Snake.mk [⟨0, 0⟩] ⟨1, 0⟩) ⟨0, 1⟩
     (by decide) (by decide)⟩

/-- ChallengeMode._add_obstacle either inserts an available cell (one on
neither the snake body nor the obstacle set) or, when no cell is
available, leaves the state unchanged. -/
lemma addObstacle_spec (st : ChallengeState) (body : List Point) (k : Nat) :
    (availablePositions st.gridSize body st.obstacles ≠ [] →
      ∃ c, c ∈ gridCells st.gridSize ∧ c ∉ body ∧ c ∉ st.obstacles ∧
        st.addObstacle body k = { st with obstacles := c :: st.obstacles }) ∧
    (availablePositions st.gridSize body st.obstacles = [] →
      st.addObstacle body k = st) := by
  constructor
  · intro hne
    unfold ChallengeState.addObstacle
    rw [dif_neg hne]
    have hmem : (availablePositions st.gridSize body st.obstacles).get
        ⟨k % (availablePositions st.gridSize body st.obstacles).length,
         Nat.mod_lt _ (List.length_pos.mpr hne)⟩ ∈
        availablePositions st.gridSize body st.obstacles :=
      List.get_mem _ _ _
    have hprops := mem_availablePositions.mp hmem
    exact ⟨_, hprops.1, hprops.2.1, hprops.2.2, rfl⟩
  · intro he
    unfold ChallengeState.addObstacle
    rw [dif_pos he]

/-- Claim C7: in challenge mode a food consumption adds exactly 0.15 to
the speed multiplier and exactly 1 to the foods-eaten count and to the
score; an obstacle (an available cell: on neither the snake body nor the
existing obstacle set) is prepended to the obstacle set exactly when the
incremented foods-eaten count is a multiple of 3 and an available cell
exists, and otherwise the obstacle set is unchanged. -/
theorem c7_challengeDifficulty (st : ChallengeState) (s : Snake)
    (food : Point) (k : Nat)
    (hwall : ¬ st.isWallCollision s) (hself : ¬ s.hasSelfCollision)
    (hobs : ¬ st.isObstacleCollision s) (hfood : s.head = food) :
    (challengeUpdate st s food k).1 = (true, some GameEvent.foodEaten) ∧
    ((challengeUpdate st s food k).2.speedMultiplier =
      st.speedMultiplier + 3 / 20 ∧
     (challengeUpdate st s food k).2.foodsEaten = st.foodsEaten + 1 ∧
     (challengeUpdate st s food k).2.score = st.score + 1) ∧
    ((st.foodsEaten + 1) % 3 = 0 →
      availablePositions st.gridSize s.body st.obstacles ≠ [] →
      ∃ c, c ∈ gridCells st.gridSize ∧ c ∉ s.body ∧ c ∉ st.obstacles ∧
        (challengeUpdate st s food k).2.obstacles = c :: st.obstacles) ∧
    ((st.foodsEaten + 1) % 3 ≠ 0 →
      (challengeUpdate st s food k).2.obstacles = st.obstacles) ∧
    (availablePositions st.gridSize s.body st.obstacles = [] →
      (challengeUpdate st s food k).2.obstacles = st.obstacles) := by
  have hupd : challengeUpdate st s food k =
      ((true, some GameEvent.foodEaten),
        ChallengeState.increaseDifficulty { st with score := st.score + 1 }
          s.body k) := by
    unfold challengeUpdate
    rw [if_neg hwall, if_neg hself, if_neg hobs, if_pos hfood]
  rw [hupd]
  set stBase : ChallengeState :=
    { st with score := st.score + 1 } with hbase
  have hdiff : ChallengeState.increaseDifficulty stBase s.body k =
      if (st.foodsEaten + 1) % OBSTACLE_FREQUENCY = 0 then
        ChallengeState.addObstacle
          { stBase with
            foodsEaten := st.foodsEaten + 1,
            speedMultiplier := st.speedMultiplier + CHALLENGE_SPEED_INCREMENT }
          s.body k
      else
        { stBase with
          foodsEaten := st.foodsEaten + 1,
          speedMultiplier := st.speedMultiplier + CHALLENGE_SPEED_INCREMENT } :=
    rfl
  rw [hdiff]
  set stFed : ChallengeState :=
    { stBase with
      foodsEaten := st.foodsEaten + 1,
      speedMultiplier := st.speedMultiplier + CHALLENGE_SPEED_INCREMENT }
    with hfed
  have hAdd := addObstacle_spec stFed s.body k
  by_cases hmod : (st.foodsEaten + 1) % OBSTACLE_FREQUENCY = 0
  · rw [if_pos hmod]
    by_cases hav : availablePositions st.gridSize s.body st.obstacles = []
    · rw [hAdd.2 hav]
      refine ⟨rfl, ⟨rfl, rfl, rfl⟩, ?_, ?_, fun _ => rfl⟩
      · intro _ hne
        exact absurd hav hne
      · intro hne
        exact absurd hmod hne
    · obtain ⟨c, hc1, hc2, hc3, heq⟩ := hAdd.1 hav
      rw [heq]
      refine ⟨rfl, ⟨rfl, rfl, rfl⟩, ?_, ?_, ?_⟩
      · intro _ _
        exact ⟨c, hc1, hc2, hc3, rfl⟩

      · intro hne
        exact absurd hmod hne
      · intro hempty
        exact absurd hempty hav
  · rw [if_neg hmod]
    refine ⟨rfl, ⟨rfl, rfl, rfl⟩, ?_, fun _ => rfl, fun _ => rfl⟩
    intro hmod2 _
    exact absurd hmod2 hmod

/-- Witness for C7: a food consumption on a 5 by 5 grid with two prior
foods eaten (so the counter reaches 3 and an obstacle is placed). -/
theorem c7_challengeDifficulty_witness :
    ¬ ({ ChallengeState.init (5, 5) with
          foodsEaten := 2 } : ChallengeState).isWallCollision
        (Snake.mk [⟨2, 2⟩, ⟨1, 2⟩] ⟨1, 0⟩) ∧
    ¬ (Snake.mk [⟨2, 2⟩, ⟨1, 2⟩] ⟨1, 0⟩).hasSelfCollision ∧
    ¬ ({ ChallengeState.init (5, 5) with
          foodsEaten := 2 } : ChallengeState).isObstacleCollision
        (Snake.mk [⟨2, 2⟩, ⟨1, 2⟩] ⟨1, 0⟩) ∧
    (Snake.mk [⟨2, 2⟩, ⟨1, 2⟩] ⟨1, 0⟩).head = (⟨2, 2⟩ : Point) ∧
    (challengeUpdate { ChallengeState.init (5, 5) with foodsEaten := 2 }
        (Snake.mk [⟨2, 2⟩, ⟨1, 2⟩] ⟨1, 0⟩) ⟨2, 2⟩ 0).1 =
      (true, some GameEvent.foodEaten) ∧
    (challengeUpdate { ChallengeState.init (5, 5) with foodsEaten := 2 }
        (Snake.mk [⟨2, 2⟩, ⟨1, 2⟩] ⟨1, 0⟩) ⟨2, 2⟩ 0).2.speedMultiplier =
      ({ ChallengeState.init (5, 5) with
          foodsEaten := 2 } : ChallengeState).speedMultiplier + 3 / 20 :=
  ⟨by decide, by decide, by decide, by decide,
   (c7_challengeDifficulty
     { ChallengeState.init (5, 5) with foodsEaten := 2 }
     (Snake.mk [⟨2, 2⟩, ⟨1, 2⟩] ⟨1, 0⟩) ⟨2, 2⟩ 0 (by decide) (by decide)
     (by decide) (by decide)).1,
   ((c7_challengeDifficulty
     { ChallengeState.init (5, 5) with foodsEaten := 2 }
     (Snake.mk [⟨2, 2⟩, ⟨1, 2⟩] ⟨1, 0⟩) ⟨2, 2⟩ 0 (by decide) (by decide)
     (by decide) (by decide)).2.1).1⟩

end Claims

section TimedLemmas

/-- The state invariant of timed mode: positive time limit and remaining
time between 0 and the limit. -/
def TimedState.Inv (st : TimedState) : Prop :=
  0 < st.timeLimit ∧ 0 ≤ st.timeRemaining ∧ st.timeRemaining ≤ st.timeLimit

/-- The timer update never touches the limit, score or accumulator. -/
lemma updateTimer_fields (st : TimedState) (t : ℚ) :
    (st.updateTimer t).timeLimit = st.timeLimit ∧
    (st.updateTimer t).score = st.score ∧
    (st.updateTimer t).bonusPoints = st.bonusPoints := by
  unfold TimedState.updateTimer
  cases st.lastUpdate <;> exact ⟨rfl, rfl, rfl⟩

/-- The timer update preserves the invariant whenever the clock did not
run backwards since the recorded timestamp. -/
lemma updateTimer_Inv {st : TimedState} {t : ℚ} (h : st.Inv)
    (hmono : ∀ l, st.lastUpdate = some l → l ≤ t) :
    (st.updateTimer t).Inv := by
  obtain ⟨hl, h0, hr⟩ := h
  unfold TimedState.updateTimer
  cases hlu : st.lastUpdate with
  | none => exact ⟨hl, h0, hr⟩
  | some l =>
    have hlt := hmono l hlu
    refine ⟨hl, le_max_left _ _, ?_⟩
    have hsub : st.timeRemaining - (t - l) ≤ st.timeLimit := by linarith
    exact max_le hl.le hsub

/-- Under the invariant the time bonus lies in [0, 10]. -/
lemma calculateTimeBonus_bounds {st : TimedState} (h : st.Inv) :
    0 ≤ st.calculateTimeBonus ∧ st.calculateTimeBonus ≤ 10 := by
  obtain ⟨hl, h0, hr⟩ := h
  unfold TimedState.calculateTimeBonus pyInt
  have hq0 : 0 ≤ st.timeRemaining / st.timeLimit * 10 := by positivity
  rw [if_pos hq0]
  constructor
  · exact Int.le_floor.mpr (by exact_mod_cast hq0)
  · have hq1 : st.timeRemaining / st.timeLimit ≤ 1 := (div_le_one hl).mpr hr
    have hq10 : st.timeRemaining / st.timeLimit * 10 ≤ 10 := by nlinarith
    calc ⌊st.timeRemaining / st.timeLimit * 10⌋
        ≤ ⌊(10 : ℚ)⌋ := Int.floor_le_floor hq10
      _ = 10 := by norm_num

/-- The state produced by a timed tick: either exactly the
timer-updated state, or the food branch, which adds 1 + bonus to the
score and bonus to the accumulator, leaving the timing fields alone.
The food branch is exactly the ticks reporting the food-eaten event. -/
lemma timedUpdate_state (st : TimedState) (t : ℚ) (s : Snake)
    (food : Point) :
    ((timedUpdate st t s food).1 ≠ (true, some GameEvent.foodEaten) ∧
      (timedUpdate st t s food).2.1 = st.updateTimer t) ∨
    ((timedUpdate st t s food).1 = (true, some GameEvent.foodEaten) ∧
      (timedUpdate st t s food).2.1 =
        { st.updateTimer t with
          score := (st.updateTimer t).score +
            (1 + (st.updateTimer t).calculateTimeBonus),
          bonusPoints := (st.updateTimer t).bonusPoints +
            (st.updateTimer t).calculateTimeBonus }) := by
  unfold timedUpdate
  by_cases h1 : (st.updateTimer t).timeRemaining ≤ 0
  · rw [if_pos h1]
    exact Or.inl ⟨by simp, rfl⟩
  · rw [if_neg h1]
    by_cases h2 : (wrapAroundMovement (st.updateTimer t).gridSize
        s).hasSelfCollision
    · rw [if_pos h2]
      exact Or.inl ⟨by simp, rfl⟩
    · rw [if_neg h2]
      by_cases h3 : (wrapAroundMovement (st.updateTimer t).gridSize s).head =
          food
      · rw [if_pos h3]
        exact Or.inr ⟨rfl, rfl⟩
      · rw [if_neg h3]
        exact Or.inl ⟨by simp, rfl⟩

end TimedLemmas

section Claims2

/-- Claim C6: in timed mode the initial state and every state produced
by a tick under a monotone clock satisfy 0 <= remaining <= limit (so the
remaining time never becomes negative), the food bonus
int(remaining / limit * 10) of any reachable state lies in [0, 10], and
on a food-eaten tick the score grows by exactly 1 + bonus while the
bonus accumulator grows by exactly the bonus. -/
theorem c6_timedInvariants (gs : Nat × Nat) (limit : ℚ) (hlimit : 0 < limit)
    (st : TimedState) (t : ℚ) (s : Snake) (food : Point) (hinv : st.Inv)
    (hmono : ∀ l, st.lastUpdate = some l → l ≤ t) :
    (TimedState.init gs limit).Inv ∧
    (timedUpdate st t s food).2.1.Inv ∧
    (0 ≤ (timedUpdate st t s food).2.1.calculateTimeBonus ∧
      (timedUpdate st t s food).2.1.calculateTimeBonus ≤ 10) ∧
    ((timedUpdate st t s food).1 = (true, some GameEvent.foodEaten) →
      (timedUpdate st t s food).2.1.score =
        st.score + (1 + (st.updateTimer t).calculateTimeBonus) ∧
      (timedUpdate st t s food).2.1.bonusPoints =
        st.bonusPoints + (st.updateTimer t).calculateTimeBonus) := by
  have hinit : (TimedState.init gs limit).Inv :=
    ⟨hlimit, hlimit.le, le_refl _⟩
  have hst1 : (st.updateTimer t).Inv := updateTimer_Inv hinv hmono
  have hfields := updateTimer_fields st t
  have hresInv : (timedUpdate st t s food).2.1.Inv ∧
      (timedUpdate st t s food).2.1.calculateTimeBonus =
        (st.updateTimer t).calculateTimeBonus := by
    rcases timedUpdate_state st t s food with ⟨_, heq⟩ | ⟨_, heq⟩
    · rw [heq]
      exact ⟨hst1, rfl⟩
    · rw [heq]
      exact ⟨hst1, rfl⟩
  refine ⟨hinit, hresInv.1, ?_, ?_⟩
  · rw [hresInv.2]
    exact calculateTimeBonus_bounds hst1
  · intro hfood
    rcases timedUpdate_state st t s food with ⟨hne, _⟩ | ⟨_, heq⟩
    · exact absurd hfood hne
    · rw [heq]
      dsimp only
      rw [hfields.2.1, hfields.2.2]
      exact ⟨rfl, rfl⟩

/-- Witness for C6 at a concrete timed tick that consumes food. -/
theorem c6_timedInvariants_witness :
    (0 : ℚ) < 30 ∧
    (TimedState.mk (10, 10) 30 12 (some 0) 0 0).Inv ∧
    ((timedUpdate (TimedState.mk (10, 10) 30 12 (some 0) 0 0) 5
        (Snake.mk [⟨7, 5⟩, ⟨6, 5⟩] ⟨1, 0⟩) ⟨7, 5⟩).2.1.Inv ∧
     0 ≤ (timedUpdate (TimedState.mk (10, 10) 30 12 (some 0) 0 0) 5
        (Snake.mk [⟨7, 5⟩, ⟨6, 5⟩] ⟨1, 0⟩) ⟨7, 5⟩).2.1.calculateTimeBonus ∧
     (timedUpdate (TimedState.mk (10, 10) 30 12 (some 0) 0 0) 5
        (Snake.mk [⟨7, 5⟩, ⟨6, 5⟩] ⟨1, 0⟩) ⟨7, 5⟩).2.1.calculateTimeBonus
       ≤ 10) := by
  have hinv : (TimedState.mk (10, 10) 30 12 (some 0) 0 0).Inv :=
    ⟨by norm_num, by norm_num, by norm_num⟩
  have hmono : ∀ l,
      (TimedState.mk (10, 10) 30 12 (some 0) 0 0).lastUpdate = some l →
      l ≤ (5 : ℚ) := by
    intro l hl
    simp only [Option.some.injEq] at hl
    rw [← hl]
    norm_num
  have h := c6_timedInvariants (10, 10) 30 (by norm_num)
    (TimedState.mk (10, 10) 30 12 (some 0) 0 0) 5
    (Snake.mk [⟨7, 5⟩, ⟨6, 5⟩] ⟨1, 0⟩) ⟨7, 5⟩ hinv hmono
  exact ⟨by norm_num, hinv, h.2.1, h.2.2.1.1, h.2.2.1.2⟩

/-- Claim C10: on a nonempty grid, whatever the snake body, obstacle
set and random outcomes (each draw being a legal randint pair inside the
grid), the spawned food position lies inside the grid, on every branch
of Food.spawn. -/
theorem c10_spawnInBounds (gs : Nat × Nat) (snakeBody obstacles : List Point)
    (draws : Nat → Point) (k : Nat) (hw : 0 < gs.1) (hh : 0 < gs.2)
    (hdraws : ∀ i, (draws i).isWithinBounds gs.1 gs.2) :
    (Food.spawn gs snakeBody obstacles draws k).isWithinBounds gs.1 gs.2 := by
  unfold Food.spawn
  dsimp only
  split
  · exact findFallbackPosition_bounds hw hh snakeBody
  · split
    · unfold randomSpawn
      cases hgo : randomSpawnGo snakeBody obstacles draws 0
          MAX_FOOD_SPAWN_ATTEMPTS with
      | none => exact findFallbackPosition_bounds hw hh snakeBody
      | some p =>
        obtain ⟨_, j, hj⟩ := randomSpawnGo_some hgo
        rw [← hj]
        exact hdraws j
    · unfold systematicSpawn
      dsimp only
      by_cases hav : availablePositions gs snakeBody obstacles = []
      · rw [dif_pos hav]
        exact findFallbackPosition_bounds hw hh snakeBody
      · rw [dif_neg hav]
        have hmem : (availablePositions gs snakeBody obstacles).get
            ⟨k % (availablePositions gs snakeBody obstacles).length,
             Nat.mod_lt _ (List.length_pos.mpr hav)⟩ ∈
            availablePositions gs snakeBody obstacles :=
          List.get_mem _ _ _
        have h := (mem_availablePositions.mp hmem).1
        rw [mem_gridCells] at h
        exact h

/-- Witness for C10 at a concrete sparse configuration. -/
theorem c10_spawnInBounds_witness :
    0 < (4, 4).1 ∧ 0 < (4, 4).2 ∧
    (Food.spawn (4, 4) [⟨1, 1⟩] [] (fun _ => ⟨2, 2⟩) 0).isWithinBounds
      (4, 4).1 (4, 4).2 :=
  ⟨by decide, by decide,
   c10_spawnInBounds (4, 4) [⟨1, 1⟩] [] (fun _ => ⟨2, 2⟩) 0 (by decide)
     (by decide)
     (fun i =>
       (by decide : (⟨2, 2⟩ : Point).isWithinBounds (4, 4).1 (4, 4).2))⟩

/-- Claim C1 counterexample: on a 3 by 3 grid with snake [(0,0)] and
obstacles (0,1), (0,2) the board is sparse (3 occupied of 9), yet under
the random outcome drawing (0,0) every time, all 100 attempts fail and
the fallback scan, which ignores obstacles, returns (0,1), a member of
the obstacle set.  The draw (0,0) is a legal randint outcome for this
grid. -/
theorem c1_counterexample :
    ([(⟨0, 0⟩ : Point)].length +
        ([⟨0, 1⟩, ⟨0, 2⟩] : List Point).length < 3 * 3) ∧
    ([⟨0, 1⟩, ⟨0, 2⟩] : List Point).Nodup ∧
    (⟨0, 0⟩ : Point).isWithinBounds 3 3 ∧
    Food.spawn (3, 3) [⟨0, 0⟩] [⟨0, 1⟩, ⟨0, 2⟩] (fun _ => ⟨0, 0⟩) 0 =
      ⟨0, 1⟩ ∧
    (⟨0, 1⟩ : Point) ∈ ([⟨0, 1⟩, ⟨0, 2⟩] : List Point) := by decide

/-- Claim C1 amended: with fewer occupied cells than grid cells, the
spawned food avoids the snake body under every random outcome; it also
avoids the obstacle set whenever the dense (systematic) path is taken,
or some draw within the 100-attempt budget hits a fully free cell.
(When the sparse path exhausts its budget, the code falls back to the
snake-only scan, so the result can lie on an obstacle, as the
counterexample shows.) -/
theorem c1_spawnAvoidsOccupied (gs : Nat × Nat)
    (snakeBody obstacles : List Point) (draws : Nat → Point) (k : Nat)
    (hobs : obstacles.Nodup)
    (hocc : snakeBody.length + obstacles.length < gs.1 * gs.2) :
    Food.spawn gs snakeBody obstacles draws k ∉ snakeBody ∧
    (gs.1 * gs.2 ≤ 2 * (snakeBody.length + obstacles.length) →
      Food.spawn gs snakeBody obstacles draws k ∉ obstacles) ∧
    ((∃ j, j < MAX_FOOD_SPAWN_ATTEMPTS ∧ draws j ∉ snakeBody ∧
        draws j ∉ obstacles) →
      Food.spawn gs snakeBody obstacles draws k ∉ obstacles) := by
  have hsnake : snakeBody.length < gs.1 * gs.2 := by omega
  have hfb := findFallbackPosition_spec (exists_free_cell hsnake)
  unfold Food.spawn
  dsimp only
  rw [if_neg (by omega)]
  by_cases hhalf : 2 * (snakeBody.length + obstacles.length) < gs.1 * gs.2
  · rw [if_pos hhalf]
    unfold randomSpawn
    cases hgo : randomSpawnGo snakeBody obstacles draws 0
        MAX_FOOD_SPAWN_ATTEMPTS with
    | none =>
      refine ⟨hfb.2, fun hge => absurd hhalf (by omega), ?_⟩
      rintro ⟨j, hj, hfree2⟩
      obtain ⟨p, hp⟩ := randomSpawnGo_succeeds MAX_FOOD_SPAWN_ATTEMPTS 0
        ⟨j, Nat.zero_le j, by omega, hfree2⟩
      rw [hgo] at hp
      cases hp
    | some p =>
      have h := (randomSpawnGo_some hgo).1
      exact ⟨h.1, fun _ => h.2, fun _ => h.2⟩
  · rw [if_neg hhalf]
    unfold systematicSpawn
    dsimp only
    have hav := availablePositions_ne_nil hocc
    rw [dif_neg hav]
    have hmem : (availablePositions gs snakeBody obstacles).get
        ⟨k % (availablePositions gs snakeBody obstacles).length,
         Nat.mod_lt _ (List.length_pos.mpr hav)⟩ ∈
        availablePositions gs snakeBody obstacles :=
      List.get_mem _ _ _
    have h := mem_availablePositions.mp hmem
    exact ⟨h.2.1, fun _ => h.2.2, fun _ => h.2.2⟩

/-- Witness for C1 amended: a sparse grid where the first draw already
hits a free cell. -/
theorem c1_spawnAvoidsOccupied_witness :
    ([(⟨0, 1⟩ : Point)] : List Point).Nodup ∧
    ([(⟨0, 0⟩ : Point)].length + [(⟨0, 1⟩ : Point)].length < 3 * 3) ∧
    Food.spawn (3, 3) [⟨0, 0⟩] [⟨0, 1⟩] (fun _ => ⟨2, 2⟩) 0 ∉
      ([⟨0, 0⟩] : List Point) :=
  ⟨by decide, by decide,
   (c1_spawnAvoidsOccupied (3, 3) [⟨0, 0⟩] [⟨0, 1⟩] (fun _ => ⟨2, 2⟩) 0
     (by decide) (by decide)).1⟩

/-- Modelled from the spec for refinement comparison: the first cell in
row-major scan order (rows indexed by y scanned upward, x increasing
inside each row) not occupied by the snake, else (0, 0). -/
def specRowMajorFallback (gridSize : Nat × Nat) (snakeBody : List Point) :
    Point :=
  let cells := (List.range gridSize.2).flatMap
    (fun y =>
      (List.range gridSize.1).map (fun x => Point.mk (Int.ofNat x) (Int.ofNat y)))
  match cells.find? (fun c => decide (c ∉ snakeBody)) with
  | some c => c
  | none => ⟨0, 0⟩

/-- Claim C9 counterexample: on a 2 by 2 grid fully occupied by count
(snake [(0,0)] plus three obstacles), the degenerate branch returns
(0,1) - the first snake-free cell in the x-outer, y-inner scan the code
uses - while the first snake-free cell in row-major order is (1,0). -/
theorem c9_counterexample :
    (2 * 2 ≤ ([(⟨0, 0⟩ : Point)] : List Point).length +
      ([⟨5, 5⟩, ⟨6, 6⟩, ⟨7, 7⟩] : List Point).length) ∧
    ([⟨5, 5⟩, ⟨6, 6⟩, ⟨7, 7⟩] : List Point).Nodup ∧
    Food.spawn (2, 2) [⟨0, 0⟩] [⟨5, 5⟩, ⟨6, 6⟩, ⟨7, 7⟩]
      (fun _ => ⟨0, 0⟩) 0 = ⟨0, 1⟩ ∧
    specRowMajorFallback (2, 2) [⟨0, 0⟩] = ⟨1, 0⟩ ∧
    (⟨0, 1⟩ : Point) ≠ (⟨1, 0⟩ : Point) := by decide

/-- Claim C9 amended: when the occupied count reaches the grid size,
Food.spawn returns the fallback scan result: the first cell not
occupied by the snake in the scan order the code uses (x ascending in
the outer loop, y ascending in the inner loop - column-major, not
row-major), obstacles ignored; when the snake covers every cell it
returns (0, 0). -/
theorem c9_spawnDegenerate (gs : Nat × Nat)
    (snakeBody obstacles : List Point) (draws : Nat → Point) (k : Nat)
    (hobs : obstacles.Nodup)
    (hocc : gs.1 * gs.2 ≤ snakeBody.length + obstacles.length) :
    Food.spawn gs snakeBody obstacles draws k =
      findFallbackPosition gs snakeBody ∧
    ((∃ c ∈ gridCells gs, c ∉ snakeBody) →
      ∃ l₁ l₂, gridCells gs =
          l₁ ++ Food.spawn gs snakeBody obstacles draws k :: l₂ ∧
        Food.spawn gs snakeBody obstacles draws k ∉ snakeBody ∧
        ∀ c ∈ l₁, c ∈ snakeBody) ∧
    ((∀ c ∈ gridCells gs, c ∈ snakeBody) →
      Food.spawn gs snakeBody obstacles draws k = ⟨0, 0⟩) := by
  have heq : Food.spawn gs snakeBody obstacles draws k =
      findFallbackPosition gs snakeBody := by
    unfold Food.spawn
    dsimp only
    rw [if_pos (by omega)]
  refine ⟨heq, ?_, ?_⟩
  · rintro ⟨c, hc, hcn⟩
    rw [heq]
    unfold findFallbackPosition
    cases hf : (gridCells gs).find? (fun c => decide (c ∉ snakeBody)) with
    | none =>
      exfalso
      rw [List.find?_eq_none] at hf
      have hcm : c ∈ snakeBody := by simpa using hf c hc
      exact hcn hcm
    | some r =>
      obtain ⟨l₁, l₂, hsplit, hpa, hprev⟩ := find?_eq_some_first hf
      refine ⟨l₁, l₂, hsplit, ?_, ?_⟩
      · simpa using hpa
      · intro b hb
        have hpb := hprev b hb
        simpa using hpb
  · intro hall
    rw [heq]
    unfold findFallbackPosition
    cases hf : (gridCells gs).find? (fun c => decide (c ∉ snakeBody)) with
    | none => rfl
    | some r =>
      exfalso
      have hpa := List.find?_some hf
      have hmem := List.mem_of_find?_eq_some hf
      simp only [decide_eq_true_eq] at hpa
      exact hpa (hall r hmem)

/-- Witness for C9 amended at the concrete degenerate configuration of
the counterexample input. -/
theorem c9_spawnDegenerate_witness :
    ([⟨5, 5⟩, ⟨6, 6⟩, ⟨7, 7⟩] : List Point).Nodup ∧
    (2 * 2 ≤ ([(⟨0, 0⟩ : Point)] : List Point).length +
      ([⟨5, 5⟩, ⟨6, 6⟩, ⟨7, 7⟩] : List Point).length) ∧
    Food.spawn (2, 2) [⟨0, 0⟩] [⟨5, 5⟩, ⟨6, 6⟩, ⟨7, 7⟩]
        (fun _ => ⟨0, 0⟩) 0 =
      findFallbackPosition (2, 2) [⟨0, 0⟩] :=
  ⟨by decide, by decide,
   (c9_spawnDegenerate (2, 2) [⟨0, 0⟩] [⟨5, 5⟩, ⟨6, 6⟩, ⟨7, 7⟩]
     (fun _ => ⟨0, 0⟩) 0 (by decide) (by decide)).1⟩

end Claims2

end SnakeGame
